import Mathlib

/-! Word Shuffle API: a shallow embedding of `word-shuffle.go`.

The program is a small HTTP service.  Its handlers are embedded as functions on an
explicit process state (`World`: the global `Metrics`, the global `Dataset`, the
number of draws made from the global random source, the number of calls made to the
ID generator, and the log) and on a model of `http.ResponseWriter`.

Everything the handlers obtain from outside the repository is an oracle in `Env`:
the values the random source yields, the outcomes of `flake.NextID`, and the outcome
of `json.Marshal`.  The standard-library routines whose exact output matters
(`fmt`, `html.EscapeString`, `encoding/json` for the response structure) are
modelled in their own namespaces.

Machine integers are `Int`/`Nat` with explicit wrap-around.
-/

namespace WordShuffle

/-! ## Machine integers and atomics -/

/-- Reduction of an integer to the range of a Go `int32` (two's complement). -/
def wrapInt32 (x : Int) : Int := (x + 2147483648) % 4294967296 - 2147483648

/-- The largest `int32`. -/
def maxInt32 : Int := 2147483647

namespace atomic

/-- Model of `atomic.AddInt32(addr, delta)`: the new value stored at `addr`. -/
def AddInt32 (v delta : Int) : Int := wrapInt32 (v + delta)

end atomic

/-! ## Data model (lines 28-101 of the source) -/

/-- Go `error` values, identified by their message. -/
abbrev GoError := String

structure APIReadResponseStruct where
  /-- A `uint64`. -/
  Uid : Nat
  Value : String
deriving DecidableEq, Repr

structure DatasetStruct where
  Words : List String
deriving DecidableEq, Repr

structure MetricsStruct where
  Index : Int
  Warnings : Int
  Errors : Int
  Create : Int
  Read : Int
  Update : Int
  Delete : Int
  /-- The `time.Time` at which the process started, as an instant. -/
  Started : Nat
deriving DecidableEq, Repr

/-- The part of `*http.Request` the handlers look at. -/
structure Request where
  Method : String
  RequestURI : String
deriving DecidableEq, Repr

/-! ## `net/http` response writer -/

def StatusOK : Nat := 200
def StatusMethodNotAllowed : Nat := 405
def StatusInternalServerError : Nat := 500

/-- Model of an `http.ResponseWriter`: whether the header has been written, the status
code it was written with, and the body bytes written so far. -/
structure ResponseWriter where
  wroteHeader : Bool
  status : Nat
  body : String
deriving DecidableEq, Repr

namespace ResponseWriter

/-- A response on which the handler has not acted yet. -/
def fresh : ResponseWriter := ⟨false, StatusOK, ""⟩

/-- Model of `WriteHeader`: the first call fixes the status, later calls are ignored. -/
def WriteHeader (rw : ResponseWriter) (code : Nat) : ResponseWriter :=
  if rw.wroteHeader then rw else { rw with wroteHeader := true, status := code }

/-- Model of `Write`: an implicit `WriteHeader(200)` if none was written, then the
data is appended to the body. -/
def Write (rw : ResponseWriter) (data : String) : ResponseWriter :=
  let rw1 := rw.WriteHeader StatusOK
  { rw1 with body := rw1.body ++ data }

/-- The status the client receives: the server sends 200 when the handler returns
without having written a header. -/
def finalStatus (rw : ResponseWriter) : Nat :=
  if rw.wroteHeader then rw.status else StatusOK

end ResponseWriter

/-! ## Logging (`zerolog`) -/

inductive Level
  | debug | info | warn | error | fatal
deriving DecidableEq, Repr

/-- A field value attached to a log record. -/
inductive LogValue
  | int32 (v : Int)
  | str (s : String)
  /-- The result of `t.Format(layout)`, kept symbolic. -/
  | timeFormat (layout : String) (t : Nat)
deriving DecidableEq, Repr

structure LogRecord where
  level : Level
  err : Option GoError
  fields : List (String × LogValue)
  msg : String
deriving DecidableEq, Repr

/-! ## Process state and environment -/

/-- What the program obtains from outside the repository. -/
structure Env where
  /-- The raw value the global `math/rand` source yields at its `k`-th draw. -/
  randSource : Nat → Nat
  /-- The outcome of the `k`-th call of `flake.NextID()`. -/
  flakeNextID : Nat → Except GoError Nat
  /-- The outcome of `json.Marshal` on a read response. -/
  jsonMarshal : APIReadResponseStruct → Except GoError String

/-- The process-wide mutable state. -/
structure World where
  Metrics : MetricsStruct
  Dataset : DatasetStruct
  /-- Number of draws made so far from the global random source. -/
  randCalls : Nat
  /-- Number of calls made so far to `flake.NextID`. -/
  flakeCalls : Nat
  log : List LogRecord
deriving DecidableEq, Repr

/-- Append one record to the log. -/
def World.emit (w : World) (level : Level) (err : Option GoError)
    (fields : List (String × LogValue)) (msg : String) : World :=
  { w with log := w.log ++ [⟨level, err, fields, msg⟩] }

/-- What a handler invocation leaves behind: the state, the response, and the panic
value if the handler panicked (the state changes made before the panic persist). -/
structure Outcome where
  world : World
  rw : ResponseWriter
  panicked : Option String
deriving DecidableEq, Repr

namespace rand

/-- Model of `rand.Intn(n)`: panics for `n <= 0`, otherwise consumes one draw of the
source and returns a value in `[0, n)`. -/
def Intn (env : Env) (w : World) (n : Int) : Except String (Nat × World) :=
  if n ≤ 0 then .error "invalid argument to Intn"
  else .ok (env.randSource w.randCalls % n.toNat, { w with randCalls := w.randCalls + 1 })

end rand

namespace flake

/-- Model of `flake.NextID()`: one call of the generator; the identifier is a `uint64`. -/
def NextID (env : Env) (w : World) : Except GoError Nat × World :=
  ((env.flakeNextID w.flakeCalls).map (fun id => id % 18446744073709551616),
   { w with flakeCalls := w.flakeCalls + 1 })

end flake

/-! ## `fmt`

`fmt.Fprintf` is called in two ways.  With a constant format and operands (`%s` on
strings, `%v` on `int32` counters) the result is the format with each verb replaced
by its operand; those calls are written out as concatenations, the operands rendered
by `fmt.verbS` and `fmt.verbV`.  In `handlerRead` the format string is data and there
are no operands; `fmt.doPrintf` models that case of the library's `(*pp).doPrintf`,
i.e. the instance `len(a) = 0`, where no verb can find an operand.

Strings are sequences of characters here; the library scans bytes, but every byte it
tests for is ASCII, which never occurs inside a multi-byte UTF-8 sequence.
-/

namespace fmt

/-- The operand of `%s` when it is a string: the string itself. -/
def verbS (s : String) : String := s

/-- The operand of `%v` when it is an `int32`: its decimal rendering, with a leading
minus sign when negative. -/
def verbV (v : Int) : String := toString v

def badWidthString : List Char := "%!(BADWIDTH)".data
def badPrecString : List Char := "%!(BADPREC)".data
def noVerbString : List Char := "%!(NOVERB)".data

/-- Output of `missingArg(verb)`. -/
def missingArg (verb : Char) : List Char := "%!".data ++ verb :: "(MISSING)".data

/-- Output of `badArgNum(verb)`. -/
def badArgNum (verb : Char) : List Char := "%!".data ++ verb :: "(BADINDEX)".data

/-- The library's `tooLarge`: widths and indices above a million are rejected. -/
def tooLarge (x : Nat) : Bool := decide (1000000 < x)

/-- Loop of `parsenum` over the bytes from `start` up to `end`: the number read so far,
whether a digit was seen, and the input left at `newi`.  On overflow `newi` is `end`. -/
def parsenumLoop : List Char → Nat → Bool → Nat × Bool × List Char
  | [], num, isnum => (num, isnum, [])
  | c :: cs, num, isnum =>
    if '0' ≤ c ∧ c ≤ '9' then
      if tooLarge num then (0, false, [])
      else parsenumLoop cs (num * 10 + (c.toNat - '0'.toNat)) true
    else (num, isnum, c :: cs)

/-- Model of `parsenum(s, start, end)`, given the bytes `s[start:end]`. -/
def parsenum (s : List Char) : Nat × Bool × List Char := parsenumLoop s 0 false

/-- Model of `parseArgNumber(format)`, where `format` starts at an opening bracket:
the index, the number of bytes the bracket expression takes, and whether it is
well-formed. -/
def parseArgNumber (format : List Char) : Int × Nat × Bool :=
  if format.length < 3 then (0, 1, false)
  else
    let inner := (format.drop 1).takeWhile (fun c => c ≠ ']')
    if inner.length = (format.drop 1).length then (0, 1, false)
    else
      let i := inner.length + 1
      match parsenum inner with
      | (width, ok, left) =>
        if !ok || !left.isEmpty then (0, i + 1, false)
        else ((width : Int) - 1, i + 1, true)

/-- Model of `argNumber(argNum, format, i, numArgs)` with `numArgs = 0`, on the input
from position `i`: the input from the new position, `found`, and the new value of
`goodArgNum` (no index is in range when there are no operands). -/
def argNumber (format : List Char) (good : Bool) : List Char × Bool × Bool :=
  match format with
  | '[' :: _ =>
    match parseArgNumber format with
    | (_, wid, ok) => (format.drop wid, ok, false)
  | _ => (format, false, good)

/-- The flag loop `simpleFormat`: flags are consumed; with no operand left the fast
path for simple verbs is never taken. -/
def skipFlags : List Char → List Char
  | [] => []
  | c :: cs =>
    if c = '#' ∨ c = '0' ∨ c = '+' ∨ c = '-' ∨ c = ' ' then skipFlags cs else c :: cs

/-- Width part of a directive: output written, input left, `afterIndex`, `goodArgNum`. -/
def width (s : List Char) (afterIndex good : Bool) :
    List Char × List Char × Bool × Bool :=
  match s with
  | '*' :: t => (badWidthString, t, false, good)
  | _ =>
    match parsenum s with
    | (_, widPresent, t) => ([], t, afterIndex, good && !(afterIndex && widPresent))

/-- Precision part of a directive: output written, input left, `afterIndex`,
`goodArgNum`. -/
def precision (s : List Char) (afterIndex good : Bool) :
    List Char × List Char × Bool × Bool :=
  match s with
  | '.' :: t =>
    match argNumber t (good && !afterIndex) with
    | (u, afterIndex1, good1) =>
      match u with
      | '*' :: v => (badPrecString, v, false, good1)
      | _ =>
        match parsenum u with
        | (_, _, v) => ([], v, afterIndex1, good1)
  | _ => ([], s, afterIndex, good)

/-- The verb of a directive, when no operand is available. -/
def verb (s : List Char) (good : Bool) : List Char × List Char :=
  match s with
  | [] => (noVerbString, [])
  | c :: rest =>
    if c = '%' then (['%'], rest)
    else if !good then (badArgNum c, rest)
    else (missingArg c, rest)

/-- One directive, from the byte after the percent sign: the output it produces and
the input left after it. -/
def directive (s : List Char) : List Char × List Char :=
  match argNumber (skipFlags s) true with
  | (s2, afterIndex2, good2) =>
    match width s2 afterIndex2 good2 with
    | (out3, s3, afterIndex3, good3) =>
      match precision s3 afterIndex3 good3 with
      | (out4, s4, afterIndex4, good4) =>
        match (if !afterIndex4 then argNumber s4 good4 else (s4, afterIndex4, good4)) with
        | (s5, _, good5) =>
          match verb s5 good5 with
          | (out6, s6) => (out3 ++ out4 ++ out6, s6)

/-- The loop `formatLoop`: literal text up to the next percent sign is copied, then one
directive is processed.  Each round consumes at least the percent sign, so
`format.length + 1` rounds always suffice. -/
def doPrintfLoop : Nat → List Char → List Char
  | 0, _ => []
  | fuel + 1, format =>
    match format.dropWhile (fun c => c ≠ '%') with
    | [] => format.takeWhile (fun c => c ≠ '%')
    | _ :: afterPercent =>
      format.takeWhile (fun c => c ≠ '%') ++ (directive afterPercent).1 ++
        doPrintfLoop fuel (directive afterPercent).2

/-- Model of `doPrintf(format, a)` with `len(a) = 0`. -/
def doPrintf (format : List Char) : List Char := doPrintfLoop (format.length + 1) format

/-- Model of `fmt.Fprintf(rw, format)` with no operands. -/
def Fprintf (rw : ResponseWriter) (format : String) : ResponseWriter :=
  rw.Write (String.mk (doPrintf format.data))

end fmt

/-! ## `html.EscapeString` -/

namespace html

/-- Replacement of one character by `html.EscapeString`. -/
def escapeChar (c : Char) : List Char :=
  if c = '&' then "&amp;".data
  else if c = Char.ofNat 39 then "&#39;".data
  else if c = '<' then "&lt;".data
  else if c = '>' then "&gt;".data
  else if c = '"' then "&#34;".data
  else [c]

/-- Model of `html.EscapeString`. -/
def EscapeString (s : String) : String := String.mk (s.data.flatMap escapeChar)

end html

/-! ## `encoding/json` on `APIReadResponseStruct`

The structure has a `uint64` field tagged `uid` and a string field tagged `value`;
the encoder writes them in declaration order, the string quoted with HTML-safe
escaping (short escapes for backspace and form feed as in Go 1.22 and later).  A Lean
string is valid Unicode, so the replacement of invalid UTF-8 does not arise.  On this
type the library encoder never returns an error: an environment of the program has
`Env.jsonMarshal = json.Marshal`. -/

namespace json

/-- The hexadecimal digit of a value below 16. -/
def hexDigit (n : Nat) : Char := "0123456789abcdef".data.getD n '0'

/-- Encoding of one character inside a JSON string. -/
def escapeChar (c : Char) : List Char :=
  if c = '"' then ['\\', '"']
  else if c = '\\' then ['\\', '\\']
  else if c = Char.ofNat 8 then ['\\', 'b']
  else if c = Char.ofNat 12 then ['\\', 'f']
  else if c = '\n' then ['\\', 'n']
  else if c = '\r' then ['\\', 'r']
  else if c = '\t' then ['\\', 't']
  else if c.toNat < 32 ∨ c = '<' ∨ c = '>' ∨ c = '&' then
    ['\\', 'u', '0', '0', hexDigit (c.toNat / 16), hexDigit (c.toNat % 16)]
  else if c.toNat = 8232 then "\\u2028".data
  else if c.toNat = 8233 then "\\u2029".data
  else [c]

/-- A string as a JSON string literal. -/
def quote (s : String) : String := "\"" ++ String.mk (s.data.flatMap escapeChar) ++ "\""

/-- The JSON object the library encoder produces for a read response. -/
def encode (v : APIReadResponseStruct) : String :=
  "\x7b\"uid\":" ++ toString v.Uid ++ ",\"value\":" ++ quote v.Value ++ "\x7d"

/-- Model of `json.Marshal` on a read response. -/
def Marshal (v : APIReadResponseStruct) : Except GoError String := .ok (encode v)

end json

/-! ## Globals (lines 23-26, 87-103) -/

def ApplicationDescription : String := "Word Shuffle API"
def BuildVersion : String := "0.0.0"

/-- The initial value of the global `Metrics`, for a process started at `started`. -/
def Metrics (started : Nat) : MetricsStruct :=
  { Index := 0, Warnings := 0, Errors := 0, Create := 0, Read := 0, Update := 0,
    Delete := 0, Started := started }

/-- The fields of the `Counters` log record (lines 125-134 and 146-155). -/
def countersFields (m : MetricsStruct) : List (String × LogValue) :=
  [("Index", .int32 m.Index), ("Warnings", .int32 m.Warnings), ("Errors", .int32 m.Errors),
   ("Create", .int32 m.Create), ("Read", .int32 m.Read), ("Update", .int32 m.Update),
   ("Delete", .int32 m.Delete),
   ("Started", .timeFormat "2006-01-02 15:04:05 MST" m.Started)]

/-! ## The signal goroutine of `handleSignal` (lines 112-139) -/

/-- The body of the goroutine started by `handleSignal`, from the moment a signal has
been received.  `shutdown` is what `httpServer.Shutdown` returned (`none` for a nil
error).  The result is the state at exit and the exit status of the process.
`log.Fatal()...Msgf` writes its record and then calls `os.Exit(1)`, so nothing after
it runs. -/
def handleSignal (shutdown : Option GoError) (w : World) : World × Nat :=
  match shutdown with
  | some err => (w.emit .fatal (some err) [] "HTTP server Shutdown error", 1)
  | none =>
    let w1 := w.emit .info none [] "HTTP server Shutdown complete"
    let w2 := w1.emit .info none (countersFields w1.Metrics) "Counters"
    let w3 := w2.emit .warn none [] "SIGINT"
    (w3, 0)

/-! ## Handlers (lines 160-234) -/

def handlerIndex (w : World) (_req : Request) (rw : ResponseWriter) : Outcome :=
  let w1 := { w with Metrics := { w.Metrics with Index := atomic.AddInt32 w.Metrics.Index 1 } }
  ⟨w1,
   rw.Write (fmt.verbS (html.EscapeString ApplicationDescription) ++ " v" ++
     fmt.verbS (html.EscapeString BuildVersion) ++ "\n"),
   none⟩

/-- The lines `handlerMetrics` writes, in order, each without its final newline. -/
def metricsLines (m : MetricsStruct) : List String :=
  ["# TYPE word_shuffle_req counter",
   "# HELP Number of the requests to the API by type",
   "word_shuffle_req\x7bmethod=\"create\"\x7d " ++ fmt.verbV m.Create,
   "word_shuffle_req\x7bmethod=\"read\"\x7d " ++ fmt.verbV m.Read,
   "word_shuffle_req\x7bmethod=\"update\"\x7d " ++ fmt.verbV m.Update,
   "word_shuffle_req\x7bmethod=\"delete\"\x7d " ++ fmt.verbV m.Delete,
   "# TYPE word_shuffle_errors counter",
   "# HELP Number of the raised errors",
   "word_shuffle_errors " ++ fmt.verbV m.Errors,
   "# TYPE word_shuffle_warnings counter",
   "# HELP Number of the raised warnings",
   "word_shuffle_warnings " ++ fmt.verbV m.Warnings,
   "# TYPE word_shuffle_index counter",
   "# HELP Number of the requests to /",
   "word_shuffle_index " ++ fmt.verbV m.Index]

/-- Fifteen `Fprintf` calls, one line each. -/
def handlerMetrics (w : World) (_req : Request) (rw : ResponseWriter) : Outcome :=
  ⟨w, (metricsLines w.Metrics).foldl (fun r line => r.Write (line ++ "\n")) rw, none⟩

def handlerCreate (w : World) (req : Request) (rw : ResponseWriter) : Outcome :=
  ⟨w.emit .warn none []
     ("Not implemented yet " ++ fmt.verbS req.Method ++ " for " ++ fmt.verbS req.RequestURI),
   rw, none⟩

def handlerRead (env : Env) (w : World) (req : Request) (rw : ResponseWriter) : Outcome :=
  let w1 := { w with Metrics := { w.Metrics with Read := atomic.AddInt32 w.Metrics.Read 1 } }
  if req.Method ≠ "GET" then
    ⟨w1.emit .warn none [] ("Ignoring unsupported http method " ++ fmt.verbS req.Method),
     rw.WriteHeader StatusMethodNotAllowed, none⟩
  else
    match rand.Intn env w1 (w1.Dataset.Words.length : Int) with
    | .error p => ⟨w1, rw, some p⟩
    | .ok (i, w2) =>
      match w2.Dataset.Words[i]? with
      | none => ⟨w2, rw, some "index out of range"⟩
      | some word =>
        match flake.NextID env w2 with
        | (.error err, w3) =>
          let w4 := { w3 with
            Metrics := { w3.Metrics with Errors := atomic.AddInt32 w3.Metrics.Errors 1 } }
          ⟨w4.emit .error (some err) [] "flake.NextID() failed",
           rw.WriteHeader StatusInternalServerError, none⟩
        | (.ok uid, w3) =>
          match env.jsonMarshal { Uid := uid, Value := word } with
          | .error err =>
            ⟨w3.emit .error (some err) [] "APICreateResponseStruct marshall failed",
             rw.WriteHeader StatusInternalServerError, none⟩
          | .ok responseJSON =>
            ⟨w3.emit .info none [] ("Returning " ++ fmt.verbS responseJSON),
             fmt.Fprintf rw responseJSON, none⟩

def handlerUpdate (w : World) (req : Request) (rw : ResponseWriter) : Outcome :=
  ⟨w.emit .warn none []
     ("Not implemented yet " ++ fmt.verbS req.Method ++ " for " ++ fmt.verbS req.RequestURI),
   rw, none⟩

def handlerDelete (w : World) (req : Request) (rw : ResponseWriter) : Outcome :=
  ⟨w.emit .warn none []
     ("Not implemented yet " ++ fmt.verbS req.Method ++ " for " ++ fmt.verbS req.RequestURI),
   rw, none⟩

/-! ## Routing (lines 301-306) -/

/-- The six handlers registered in `main`. -/
inductive Route
  | index | metrics | create | read | update | delete
deriving DecidableEq, Repr

/-- The handler a registered pattern selects: the five exact patterns, and the
catch-all pattern for every other path. -/
def mux (path : String) : Route :=
  if path = "/metrics" then .metrics
  else if path = "/create" then .create
  else if path = "/read" then .read
  else if path = "/update" then .update
  else if path = "/delete" then .delete
  else .index

/-- Run the handler of a route. -/
def serve (env : Env) (r : Route) (w : World) (req : Request) (rw : ResponseWriter) :
    Outcome :=
  match r with
  | .index => handlerIndex w req rw
  | .metrics => handlerMetrics w req rw
  | .create => handlerCreate w req rw
  | .read => handlerRead env w req rw
  | .update => handlerUpdate w req rw
  | .delete => handlerDelete w req rw

/-- Serve a sequence of requests to `/read` one after the other, each on a response of
its own; the server recovers a panicking handler and goes on with the next request. -/
def serveReads (env : Env) : World → List Request → World
  | w, [] => w
  | w, req :: rest => serveReads env (handlerRead env w req ResponseWriter.fresh).world rest

/-! ## Reading the metrics exposition -/

/-- The newline-terminated lines of a text; `cur` holds the current line reversed. -/
def splitLines : List Char → List Char → List (List Char)
  | _, [] => []
  | cur, c :: cs => if c = '\n' then cur.reverse :: splitLines [] cs else splitLines (c :: cur) cs

/-- The lines of a body that are not comments (a comment line starts with `#`). -/
def nonCommentLines (body : String) : List String :=
  ((splitLines [] body.data).filter (fun l => l.head? ≠ some '#')).map String.mk

/-! ## Concrete environments used in examples -/

/-- An environment in which the random source yields 0, 1, 2, ..., the generator
yields 1, 2, 3, ... and serialization is the library encoder. -/
def demoEnv : Env :=
  { randSource := fun k => k, flakeNextID := fun k => .ok (k + 1), jsonMarshal := json.Marshal }

/-- An environment whose generator always fails. -/
def flakeFailEnv : Env :=
  { demoEnv with flakeNextID := fun _ => .error "over the time limit" }

/-- A state with the given words and counters all zero. -/
def initWorld (words : List String) : World :=
  { Metrics := Metrics 0, Dataset := ⟨words⟩, randCalls := 0, flakeCalls := 0, log := [] }

def getRead : Request := ⟨"GET", "/read"⟩
def postRead : Request := ⟨"POST", "/read"⟩

/-! ## Predicates used to state the properties -/

/-- All seven counters are non-negative. -/
def MetricsStruct.nonneg (m : MetricsStruct) : Prop :=
  0 ≤ m.Index ∧ 0 ≤ m.Warnings ∧ 0 ≤ m.Errors ∧ 0 ≤ m.Create ∧ 0 ≤ m.Read ∧
    0 ≤ m.Update ∧ 0 ≤ m.Delete

instance (m : MetricsStruct) : Decidable m.nonneg := by
  unfold MetricsStruct.nonneg
  infer_instance

/-- No counter of `a` exceeds the same counter of `b`. -/
def MetricsStruct.le (a b : MetricsStruct) : Prop :=
  a.Index ≤ b.Index ∧ a.Warnings ≤ b.Warnings ∧ a.Errors ≤ b.Errors ∧
    a.Create ≤ b.Create ∧ a.Read ≤ b.Read ∧ a.Update ≤ b.Update ∧ a.Delete ≤ b.Delete

instance (a b : MetricsStruct) : Decidable (a.le b) := by
  unfold MetricsStruct.le
  infer_instance

/-- The records a run appended to the log, given the state before and after it. -/
def emitted (before after : World) : List LogRecord := after.log.drop before.log.length

/-- The metrics snapshots among some log records: the records with message `Counters`. -/
def snapshots (records : List LogRecord) : List LogRecord :=
  records.filter (fun r => r.msg = "Counters")

/-- A state whose counters are zero except `Index`, which holds the largest `int32`. -/
def fullIndexWorld : World :=
  { initWorld ["alpha"] with Metrics := { Metrics 0 with Index := maxInt32 } }

/-! ## Intermediate states of `handlerRead` -/

/-- The state after line 196. -/
def afterCount (w : World) : World :=
  { w with Metrics := { w.Metrics with Read := atomic.AddInt32 w.Metrics.Read 1 } }

/-- The state after line 204, when the word list is not empty. -/
def afterDraw (w : World) : World :=
  { afterCount w with randCalls := w.randCalls + 1 }

/-- The state after line 206. -/
def afterNextID (w : World) : World :=
  { afterDraw w with flakeCalls := w.flakeCalls + 1 }

/-- The index line 204 draws. -/
def drawnIndex (env : Env) (w : World) : Nat :=
  env.randSource w.randCalls % w.Dataset.Words.length

/-! ## Basic facts about the model -/

theorem wrapInt32_of_range (x : Int) (h0 : -2147483648 ≤ x) (h1 : x ≤ 2147483647) :
    wrapInt32 x = x := by
  unfold wrapInt32
  omega

theorem AddInt32_one (v : Int) (h0 : 0 ≤ v) (h1 : v < maxInt32) :
    atomic.AddInt32 v 1 = v + 1 := by
  unfold atomic.AddInt32 maxInt32 at *
  exact wrapInt32_of_range _ (by omega) (by omega)

theorem drawnIndex_lt (env : Env) (w : World) (h : w.Dataset.Words ≠ []) :
    drawnIndex env w < w.Dataset.Words.length :=
  Nat.mod_lt _ (List.length_pos.mpr h)

/-- Path of `handlerRead` for a verb other than GET (lines 198-202). -/
theorem handlerRead_notGET (env : Env) (w : World) (req : Request) (rw : ResponseWriter)
    (h : req.Method ≠ "GET") :
    handlerRead env w req rw =
      ⟨(afterCount w).emit .warn none []
          ("Ignoring unsupported http method " ++ fmt.verbS req.Method),
        rw.WriteHeader StatusMethodNotAllowed, none⟩ := by
  simp [handlerRead, h, afterCount]

/-- Path of `handlerRead` for GET on an empty word list: `rand.Intn(0)` panics. -/
theorem handlerRead_empty (env : Env) (w : World) (req : Request) (rw : ResponseWriter)
    (h : req.Method = "GET") (he : w.Dataset.Words = []) :
    handlerRead env w req rw = ⟨afterCount w, rw, some "invalid argument to Intn"⟩ := by
  simp [handlerRead, h, afterCount, rand.Intn, he]

/-- Path of `handlerRead` when the generator fails (lines 207-212). -/
theorem handlerRead_flakeError (env : Env) (w : World) (req : Request) (rw : ResponseWriter)
    (h : req.Method = "GET") (hne : w.Dataset.Words ≠ []) (err : GoError)
    (hf : env.flakeNextID w.flakeCalls = .error err) :
    handlerRead env w req rw =
      ⟨({ afterNextID w with
            Metrics := { (afterNextID w).Metrics with
              Errors := atomic.AddInt32 w.Metrics.Errors 1 } }).emit
          .error (some err) [] "flake.NextID() failed",
        rw.WriteHeader StatusInternalServerError, none⟩ := by
  have hlt := drawnIndex_lt env w hne
  have hpos : 0 < w.Dataset.Words.length := List.length_pos.mpr hne
  have hn : ¬ ((w.Dataset.Words.length : Int) ≤ 0) := by omega
  unfold drawnIndex at hlt
  simp [handlerRead, h, rand.Intn, hn, flake.NextID, hf, Except.map, hlt,
    afterNextID, afterDraw, afterCount, List.getElem?_eq_getElem]

/-- Path of `handlerRead` when serialization fails (lines 218-222). -/
theorem handlerRead_marshalError (env : Env) (w : World) (req : Request)
    (rw : ResponseWriter) (h : req.Method = "GET") (hne : w.Dataset.Words ≠ [])
    (uid : Nat) (hf : env.flakeNextID w.flakeCalls = .ok uid) (err : GoError)
    (hj : env.jsonMarshal
      { Uid := uid % 18446744073709551616,
        Value := w.Dataset.Words.get ⟨drawnIndex env w, drawnIndex_lt env w hne⟩ } =
        .error err) :
    handlerRead env w req rw =
      ⟨(afterNextID w).emit .error (some err) [] "APICreateResponseStruct marshall failed",
        rw.WriteHeader StatusInternalServerError, none⟩ := by
  have hlt := drawnIndex_lt env w hne
  have hpos : 0 < w.Dataset.Words.length := List.length_pos.mpr hne
  have hn : ¬ ((w.Dataset.Words.length : Int) ≤ 0) := by omega
  unfold drawnIndex at hlt hj
  simp at hj
  simp [handlerRead, h, rand.Intn, hn, flake.NextID, hf, Except.map, hlt, hj,
    afterNextID, afterDraw, afterCount, List.getElem?_eq_getElem]

/-- Path of `handlerRead` when everything succeeds (lines 224-225). -/
theorem handlerRead_ok (env : Env) (w : World) (req : Request)
    (rw : ResponseWriter) (h : req.Method = "GET") (hne : w.Dataset.Words ≠ [])
    (uid : Nat) (hf : env.flakeNextID w.flakeCalls = .ok uid) (responseJSON : String)
    (hj : env.jsonMarshal
      { Uid := uid % 18446744073709551616,
        Value := w.Dataset.Words.get ⟨drawnIndex env w, drawnIndex_lt env w hne⟩ } =
        .ok responseJSON) :
    handlerRead env w req rw =
      ⟨(afterNextID w).emit .info none [] ("Returning " ++ fmt.verbS responseJSON),
        fmt.Fprintf rw responseJSON, none⟩ := by
  have hlt := drawnIndex_lt env w hne
  have hpos : 0 < w.Dataset.Words.length := List.length_pos.mpr hne
  have hn : ¬ ((w.Dataset.Words.length : Int) ≤ 0) := by omega
  unfold drawnIndex at hlt hj
  simp at hj
  simp [handlerRead, h, rand.Intn, hn, flake.NextID, hf, Except.map, hlt, hj,
    afterNextID, afterDraw, afterCount, List.getElem?_eq_getElem]

/-- The five paths of `handlerRead` cover every invocation: what the counters can be
afterwards. -/
theorem handlerRead_Metrics (env : Env) (w : World) (req : Request) (rw : ResponseWriter) :
    (handlerRead env w req rw).world.Metrics =
        { w.Metrics with Read := atomic.AddInt32 w.Metrics.Read 1 } ∨
    (handlerRead env w req rw).world.Metrics =
        { w.Metrics with Read := atomic.AddInt32 w.Metrics.Read 1,
                         Errors := atomic.AddInt32 w.Metrics.Errors 1 } := by
  by_cases h : req.Method = "GET"
  · by_cases hne : w.Dataset.Words = []
    · left
      rw [handlerRead_empty env w req rw h hne]
      rfl
    · cases hf : env.flakeNextID w.flakeCalls with
      | error err =>
        right
        rw [handlerRead_flakeError env w req rw h hne err hf]
        rfl
      | ok uid =>
        left
        cases hj : env.jsonMarshal
            { Uid := uid % 18446744073709551616,
              Value := w.Dataset.Words.get ⟨drawnIndex env w, drawnIndex_lt env w hne⟩ } with
        | error err =>
          rw [handlerRead_marshalError env w req rw h hne uid hf err hj]
          rfl
        | ok responseJSON =>
          rw [handlerRead_ok env w req rw h hne uid hf responseJSON hj]
          rfl
  · left
    rw [handlerRead_notGET env w req rw h]
    rfl

/-- Every invocation of `handlerRead` adds one to `Read` (line 196 precedes the check of
the verb). -/
theorem handlerRead_Read (env : Env) (w : World) (req : Request) (rw : ResponseWriter) :
    (handlerRead env w req rw).world.Metrics.Read = atomic.AddInt32 w.Metrics.Read 1 := by
  rcases handlerRead_Metrics env w req rw with h | h <;> rw [h]

/-- When the generator fails on a GET with a non-empty word list, the response is 500
with an empty body and `Errors` is incremented. -/
theorem handlerRead_flakeError_effect (env : Env) (w : World) (req : Request)
    (h : req.Method = "GET") (hne : w.Dataset.Words ≠ []) (err : GoError)
    (hf : env.flakeNextID w.flakeCalls = .error err) :
    (handlerRead env w req .fresh).rw.finalStatus = StatusInternalServerError ∧
    (handlerRead env w req .fresh).rw.body = "" ∧
    (handlerRead env w req .fresh).panicked = none ∧
    (handlerRead env w req .fresh).world.Metrics.Errors =
      atomic.AddInt32 w.Metrics.Errors 1 := by
  rw [handlerRead_flakeError env w req _ h hne err hf]
  exact ⟨rfl, rfl, rfl, rfl⟩

/-- The branch of lines 218-222: were serialization to fail on a GET with a non-empty
word list, the response would be 500 with an empty body and `Errors` left as it was.
With the library encoder the hypothesis `hj` is never met. -/
theorem handlerRead_marshalError_effect (env : Env) (w : World) (req : Request)
    (h : req.Method = "GET") (hne : w.Dataset.Words ≠ [])
    (uid : Nat) (hf : env.flakeNextID w.flakeCalls = .ok uid) (err : GoError)
    (hj : env.jsonMarshal
      { Uid := uid % 18446744073709551616,
        Value := w.Dataset.Words.get ⟨drawnIndex env w, drawnIndex_lt env w hne⟩ } =
        .error err) :
    (handlerRead env w req .fresh).rw.finalStatus = StatusInternalServerError ∧
    (handlerRead env w req .fresh).rw.body = "" ∧
    (handlerRead env w req .fresh).panicked = none ∧
    (handlerRead env w req .fresh).world.Metrics.Errors = w.Metrics.Errors := by
  rw [handlerRead_marshalError env w req _ h hne uid hf err hj]
  exact ⟨rfl, rfl, rfl, rfl⟩

/-- On a GET with an empty word list the handler panics whatever the environment is;
nothing is written to the response and `Errors` is left as it was. -/
theorem handlerRead_empty_effect (env : Env) (w : World) (req : Request)
    (rw : ResponseWriter) (h : req.Method = "GET") (he : w.Dataset.Words = []) :
    (handlerRead env w req rw).panicked = some "invalid argument to Intn" ∧
    (handlerRead env w req rw).rw = rw ∧
    (handlerRead env w req rw).world.Metrics.Errors = w.Metrics.Errors := by
  rw [handlerRead_empty env w req rw h he]
  exact ⟨rfl, rfl, rfl⟩

/-! ## Rejection of other verbs on `/read` -/

/-- C5: for every request to `/read` whose verb is not GET and every state, the `Errors`
counter after `handlerRead` equals the `Errors` counter before it. -/
theorem C5_rejected_verb_keeps_Errors (env : Env) (w : World) (req : Request)
    (rw : ResponseWriter) (h : req.Method ≠ "GET") :
    (handlerRead env w req rw).world.Metrics.Errors = w.Metrics.Errors := by
  rw [handlerRead_notGET env w req rw h]
  rfl

/-- C5 at a POST request on the word list `alpha`, `beta`. -/
theorem C5_rejected_verb_keeps_Errors_witness :
    postRead.Method ≠ "GET" ∧
    (handlerRead demoEnv (initWorld ["alpha", "beta"]) postRead .fresh).world.Metrics.Errors =
      (initWorld ["alpha", "beta"]).Metrics.Errors :=
  ⟨by decide,
   C5_rejected_verb_keeps_Errors demoEnv (initWorld ["alpha", "beta"]) postRead .fresh
     (by decide)⟩

/-- C2, as the claim states it, fails: a POST to `/read` moves `Read` from 0 to 1, and
after three GET reads and one POST the counter is 4, not 3. -/
theorem C2_counterexample :
    postRead.Method ≠ "GET" ∧
    (initWorld ["alpha", "beta"]).Metrics.Read = 0 ∧
    (handlerRead demoEnv (initWorld ["alpha", "beta"]) postRead .fresh).world.Metrics.Read = 1 ∧
    (serveReads demoEnv (initWorld ["alpha", "beta"])
      [getRead, getRead, getRead, postRead]).Metrics.Read = 4 := by
  refine ⟨by decide, rfl, ?_, ?_⟩
  · rw [handlerRead_Read]; decide
  · simp only [serveReads, handlerRead_Read]; decide

/-- C2, amended: for every request to `/read` whose verb is not GET and every state,
`handlerRead` responds with status 405 and an empty body, draws nothing from the random
source, does not call the ID generator, produces the same response, counters and log
whatever the word list and the environment are, and adds one to the `Read` counter
(`int32` addition; exactly `Read + 1` below the largest `int32`); after three GET reads
and one such request, starting from `Read = 0`, the `Read` counter equals 4. -/
theorem C2_rejected_verb (env : Env) (w : World) (req : Request)
    (h : req.Method ≠ "GET") :
    (handlerRead env w req .fresh).rw.finalStatus = StatusMethodNotAllowed ∧
    (handlerRead env w req .fresh).rw.body = "" ∧
    (handlerRead env w req .fresh).panicked = none ∧
    (handlerRead env w req .fresh).world.randCalls = w.randCalls ∧
    (handlerRead env w req .fresh).world.flakeCalls = w.flakeCalls ∧
    (handlerRead env w req .fresh).world.Dataset = w.Dataset ∧
    (∀ (env2 : Env) (d : DatasetStruct),
      (handlerRead env2 { w with Dataset := d } req .fresh).rw =
          (handlerRead env w req .fresh).rw ∧
      (handlerRead env2 { w with Dataset := d } req .fresh).world.Metrics =
          (handlerRead env w req .fresh).world.Metrics ∧
      (handlerRead env2 { w with Dataset := d } req .fresh).world.log =
          (handlerRead env w req .fresh).world.log) ∧
    (handlerRead env w req .fresh).world.Metrics.Read = atomic.AddInt32 w.Metrics.Read 1 ∧
    (0 ≤ w.Metrics.Read → w.Metrics.Read < maxInt32 →
      (handlerRead env w req .fresh).world.Metrics.Read = w.Metrics.Read + 1) ∧
    (w.Metrics.Read = 0 → ∀ g1 g2 g3 : Request,
      g1.Method = "GET" → g2.Method = "GET" → g3.Method = "GET" →
      (serveReads env w [g1, g2, g3, req]).Metrics.Read = 4) := by
  refine ⟨?_, ?_, ?_, ?_, ?_, ?_, ?_, ?_, ?_, ?_⟩
  · rw [handlerRead_notGET env w req _ h]; rfl
  · rw [handlerRead_notGET env w req _ h]; rfl
  · rw [handlerRead_notGET env w req _ h]
  · rw [handlerRead_notGET env w req _ h]; rfl
  · rw [handlerRead_notGET env w req _ h]; rfl
  · rw [handlerRead_notGET env w req _ h]; rfl
  · intro env2 d
    rw [handlerRead_notGET env w req _ h, handlerRead_notGET env2 _ req _ h]
    exact ⟨rfl, rfl, rfl⟩
  · exact handlerRead_Read env w req _
  · intro h0 h1
    rw [handlerRead_Read, AddInt32_one _ h0 h1]
  · intro h0 g1 g2 g3 _ _ _
    simp only [serveReads, handlerRead_Read, h0]
    decide

/-- C2, amended, at a POST request on the word list `alpha`, `beta`. -/
theorem C2_rejected_verb_witness :
    postRead.Method ≠ "GET" ∧
    (handlerRead demoEnv (initWorld ["alpha", "beta"]) postRead .fresh).rw.finalStatus = 405 ∧
    (handlerRead demoEnv (initWorld ["alpha", "beta"]) postRead .fresh).world.flakeCalls = 0 ∧
    (handlerRead demoEnv (initWorld ["alpha", "beta"]) postRead .fresh).world.Metrics.Read =
      atomic.AddInt32 0 1 :=
  ⟨by decide,
   (C2_rejected_verb demoEnv (initWorld ["alpha", "beta"]) postRead (by decide)).1,
   (C2_rejected_verb demoEnv (initWorld ["alpha", "beta"]) postRead (by decide)).2.2.2.2.1,
   (C2_rejected_verb demoEnv (initWorld ["alpha", "beta"]) postRead
     (by decide)).2.2.2.2.2.2.2.1⟩

/-! ## Failures on the read path -/

/-- C3, the code at the failing input: a GET to `/read` with an empty word list panics
in `rand.Intn(0)`; no status and no body are written and `Errors` stays 0. -/
theorem C3_empty_word_list_panics :
    (handlerRead demoEnv (initWorld []) getRead .fresh).panicked =
      some "invalid argument to Intn" ∧
    (handlerRead demoEnv (initWorld []) getRead .fresh).rw = ResponseWriter.fresh ∧
    (handlerRead demoEnv (initWorld []) getRead .fresh).world.Metrics.Errors = 0 ∧
    (initWorld []).Metrics.Errors = 0 := by
  rw [handlerRead_empty demoEnv (initWorld []) getRead _ rfl rfl]
  exact ⟨rfl, rfl, rfl, rfl⟩

/-- C4: with serialization being the library encoder, for every GET request to `/read`
on a non-empty word list in which the ID generator returns an error or serialization
returns an error, `handlerRead` responds with status 500 and an empty body, and the
`Errors` counter is increased by one (`int32` addition; exactly `Errors + 1` below the
largest `int32`).  The library encoder cannot fail on a response made of a `uint64` and
a string, so every such request is one on which the generator failed. -/
theorem C4_internal_failure (env : Env) (w : World) (req : Request)
    (hm : env.jsonMarshal = json.Marshal)
    (h : req.Method = "GET") (hne : w.Dataset.Words ≠ [])
    (hfail : (∃ err, env.flakeNextID w.flakeCalls = .error err) ∨
      (∃ uid word err, env.flakeNextID w.flakeCalls = .ok uid ∧
        env.jsonMarshal { Uid := uid % 18446744073709551616, Value := word } =
          .error err)) :
    (handlerRead env w req .fresh).rw.finalStatus = StatusInternalServerError ∧
    (handlerRead env w req .fresh).rw.body = "" ∧
    (handlerRead env w req .fresh).panicked = none ∧
    (handlerRead env w req .fresh).world.Metrics.Errors =
      atomic.AddInt32 w.Metrics.Errors 1 ∧
    (0 ≤ w.Metrics.Errors → w.Metrics.Errors < maxInt32 →
      (handlerRead env w req .fresh).world.Metrics.Errors = w.Metrics.Errors + 1) := by
  rcases hfail with ⟨err, hf⟩ | ⟨uid, word, err, _, hj⟩
  · obtain ⟨h1, h2, h3, h4⟩ := handlerRead_flakeError_effect env w req h hne err hf
    refine ⟨h1, h2, h3, h4, ?_⟩
    intro h0 hlt
    rw [h4, AddInt32_one _ h0 hlt]
  · rw [hm] at hj
    cases hj

/-- C4 at a GET on the word list `alpha` when the generator fails: `Errors` goes from 0
to 1. -/
theorem C4_internal_failure_witness :
    flakeFailEnv.jsonMarshal = json.Marshal ∧ getRead.Method = "GET" ∧
    (initWorld ["alpha"]).Dataset.Words ≠ [] ∧
    flakeFailEnv.flakeNextID (initWorld ["alpha"]).flakeCalls =
      .error "over the time limit" ∧
    (handlerRead flakeFailEnv (initWorld ["alpha"]) getRead .fresh).rw.finalStatus = 500 ∧
    (handlerRead flakeFailEnv (initWorld ["alpha"]) getRead .fresh).rw.body = "" ∧
    (handlerRead flakeFailEnv (initWorld ["alpha"]) getRead .fresh).world.Metrics.Errors =
      0 + 1 :=
  ⟨rfl, rfl, by decide, rfl,
   (C4_internal_failure flakeFailEnv (initWorld ["alpha"]) getRead rfl rfl (by decide)
     (Or.inl ⟨"over the time limit", rfl⟩)).1,
   (C4_internal_failure flakeFailEnv (initWorld ["alpha"]) getRead rfl rfl (by decide)
     (Or.inl ⟨"over the time limit", rfl⟩)).2.1,
   (C4_internal_failure flakeFailEnv (initWorld ["alpha"]) getRead rfl rfl (by decide)
     (Or.inl ⟨"over the time limit", rfl⟩)).2.2.2.2 (by decide) (by decide)⟩

/-! ## The unimplemented operations -/

/-- C7, as the claim states it, fails: a request to `/create`, `/update` or `/delete`
is answered with the default status 200, and the `Create`, `Update` and `Delete`
counters stay 0. -/
theorem C7_counterexample :
    (serve demoEnv (mux "/create") (initWorld ["alpha"]) ⟨"POST", "/create"⟩
      .fresh).rw.finalStatus = StatusOK ∧
    (serve demoEnv (mux "/create") (initWorld ["alpha"]) ⟨"POST", "/create"⟩
      .fresh).world.Metrics.Create = 0 ∧
    (serve demoEnv (mux "/update") (initWorld ["alpha"]) ⟨"PUT", "/update"⟩
      .fresh).rw.finalStatus = StatusOK ∧
    (serve demoEnv (mux "/update") (initWorld ["alpha"]) ⟨"PUT", "/update"⟩
      .fresh).world.Metrics.Update = 0 ∧
    (serve demoEnv (mux "/delete") (initWorld ["alpha"]) ⟨"DELETE", "/delete"⟩
      .fresh).rw.finalStatus = StatusOK ∧
    (serve demoEnv (mux "/delete") (initWorld ["alpha"]) ⟨"DELETE", "/delete"⟩
      .fresh).world.Metrics.Delete = 0 := by
  decide

/-- C7, amended: for every request to `/create`, `/update` or `/delete`, the handler
writes nothing to the response (so the client receives the default status 200 and an
empty body), changes no counter, and only logs one warning `Not implemented yet
<verb> for <uri>`. -/
theorem C7_stubs_only_log (env : Env) (w : World) (req : Request) (path : String)
    (hp : path = "/create" ∨ path = "/update" ∨ path = "/delete") :
    (serve env (mux path) w req .fresh).rw = ResponseWriter.fresh ∧
    (serve env (mux path) w req .fresh).rw.finalStatus = StatusOK ∧
    (serve env (mux path) w req .fresh).rw.body = "" ∧
    (serve env (mux path) w req .fresh).panicked = none ∧
    (serve env (mux path) w req .fresh).world.Metrics = w.Metrics ∧
    (serve env (mux path) w req .fresh).world.log =
      w.log ++ [⟨.warn, none, [],
        "Not implemented yet " ++ req.Method ++ " for " ++ req.RequestURI⟩] := by
  rcases hp with rfl | rfl | rfl <;> exact ⟨rfl, rfl, rfl, rfl, rfl, rfl⟩

/-- C7, amended, at a POST request to `/create`. -/
theorem C7_stubs_only_log_witness :
    ("/create" = "/create" ∨ "/create" = "/update" ∨ "/create" = "/delete") ∧
    (serve demoEnv (mux "/create") (initWorld ["alpha"]) ⟨"POST", "/create"⟩
      .fresh).rw.finalStatus = StatusOK ∧
    (serve demoEnv (mux "/create") (initWorld ["alpha"]) ⟨"POST", "/create"⟩
      .fresh).world.Metrics = (initWorld ["alpha"]).Metrics :=
  ⟨Or.inl rfl,
   (C7_stubs_only_log demoEnv (initWorld ["alpha"]) ⟨"POST", "/create"⟩ "/create"
     (Or.inl rfl)).2.1,
   (C7_stubs_only_log demoEnv (initWorld ["alpha"]) ⟨"POST", "/create"⟩ "/create"
     (Or.inl rfl)).2.2.2.2.1⟩

/-! ## Shutdown -/

/-- C8, as the claim states it, fails: when `Shutdown` returns an error the process
exits (with status 1) without a metrics snapshot having been logged. -/
theorem C8_counterexample :
    snapshots (emitted (initWorld ["alpha"])
      (handleSignal (some "close failed") (initWorld ["alpha"])).1) = [] ∧
    (handleSignal (some "close failed") (initWorld ["alpha"])).2 = 1 := by
  decide

/-- C8, amended: in the signal handler, after a termination signal: if `Shutdown`
returned no error, exactly one metrics snapshot (the `Counters` record, carrying the
current counters) is logged before the process exits and the exit status is 0; if
`Shutdown` returned an error, the error is logged at fatal level, no snapshot is
logged, and the exit status is 1, which is not 0.  The counters are not changed. -/
theorem C8_signal_handler (w : World) :
    snapshots (emitted w (handleSignal none w).1) =
      [⟨.info, none, countersFields w.Metrics, "Counters"⟩] ∧
    (handleSignal none w).2 = 0 ∧
    (handleSignal none w).1.Metrics = w.Metrics ∧
    (∀ err : GoError,
      emitted w (handleSignal (some err) w).1 =
        [⟨.fatal, some err, [], "HTTP server Shutdown error"⟩] ∧
      snapshots (emitted w (handleSignal (some err) w).1) = [] ∧
      (handleSignal (some err) w).2 = 1 ∧
      (handleSignal (some err) w).2 ≠ 0 ∧
      (handleSignal (some err) w).1.Metrics = w.Metrics) := by
  refine ⟨?_, rfl, rfl, ?_⟩
  · simp [handleSignal, emitted, World.emit, snapshots, List.filter]
  · intro err
    refine ⟨?_, ?_, rfl, by simp [handleSignal], rfl⟩
    · simp [handleSignal, emitted, World.emit]
    · simp [handleSignal, emitted, World.emit, snapshots, List.filter]

/-! ## Monotonicity of the counters -/

theorem serve_Metrics (env : Env) (r : Route) (w : World) (req : Request)
    (rw : ResponseWriter) :
    (serve env r w req rw).world.Metrics = w.Metrics ∨
    (serve env r w req rw).world.Metrics =
        { w.Metrics with Index := atomic.AddInt32 w.Metrics.Index 1 } ∨
    (serve env r w req rw).world.Metrics =
        { w.Metrics with Read := atomic.AddInt32 w.Metrics.Read 1 } ∨
    (serve env r w req rw).world.Metrics =
        { w.Metrics with Read := atomic.AddInt32 w.Metrics.Read 1,
                         Errors := atomic.AddInt32 w.Metrics.Errors 1 } := by
  cases r with
  | index => right; left; rfl
  | metrics => left; rfl
  | create => left; rfl
  | read =>
    right; right
    exact handlerRead_Metrics env w req rw
  | update => left; rfl
  | delete => left; rfl

/-- C9, as the claim states it, fails: with `Index` at the largest `int32` and every
counter non-negative, `handlerIndex` leaves `Index` at -2147483648. -/
theorem C9_counterexample :
    fullIndexWorld.Metrics.nonneg ∧
    (serve demoEnv .index fullIndexWorld ⟨"GET", "/"⟩ .fresh).world.Metrics.Index =
      -2147483648 ∧
    ¬ (serve demoEnv .index fullIndexWorld ⟨"GET", "/"⟩ .fresh).world.Metrics.nonneg ∧
    ¬ fullIndexWorld.Metrics.le
      (serve demoEnv .index fullIndexWorld ⟨"GET", "/"⟩ .fresh).world.Metrics := by
  decide

/-- C9, amended: for every state in which all seven counters are non-negative and the
counters `Index`, `Read` and `Errors` are below the largest `int32` (2147483647), and
for every handler and every request, after the handler runs every counter is still
non-negative and is greater than or equal to its value before the call, with counter
arithmetic taken as 32-bit signed addition. -/
theorem C9_counters_monotone (env : Env) (r : Route) (w : World) (req : Request)
    (rw : ResponseWriter) (hn : w.Metrics.nonneg)
    (hI : w.Metrics.Index < maxInt32) (hR : w.Metrics.Read < maxInt32)
    (hE : w.Metrics.Errors < maxInt32) :
    (serve env r w req rw).world.Metrics.nonneg ∧
    w.Metrics.le (serve env r w req rw).world.Metrics := by
  obtain ⟨h1, h2, h3, h4, h5, h6, h7⟩ := hn
  have eI := AddInt32_one _ h1 hI
  have eR := AddInt32_one _ h5 hR
  have eE := AddInt32_one _ h3 hE
  rcases serve_Metrics env r w req rw with h | h | h | h <;> rw [h] <;>
    simp only [MetricsStruct.nonneg, MetricsStruct.le, eI, eR, eE] <;>
    refine ⟨⟨?_, ?_, ?_, ?_, ?_, ?_, ?_⟩, ?_, ?_, ?_, ?_, ?_, ?_, ?_⟩ <;> omega

/-- C9, amended, at a GET to `/read` from zero counters. -/
theorem C9_counters_monotone_witness :
    (initWorld ["alpha"]).Metrics.nonneg ∧
    (serve demoEnv .read (initWorld ["alpha"]) getRead .fresh).world.Metrics.nonneg ∧
    (initWorld ["alpha"]).Metrics.le
      (serve demoEnv .read (initWorld ["alpha"]) getRead .fresh).world.Metrics :=
  ⟨by decide,
   C9_counters_monotone demoEnv .read (initWorld ["alpha"]) getRead .fresh
     (by decide) (by decide) (by decide) (by decide)⟩

/-! ## Decimal renderings -/

/-- A character that is neither a decimal digit nor the minus sign does not occur in
the digits `Nat.toDigitsCore` produces. -/
theorem not_mem_toDigitsCore (c : Char) (hc : ∀ k, k < 10 → Nat.digitChar k ≠ c) :
    ∀ (fuel n : Nat) (ds : List Char), c ∉ ds → c ∉ Nat.toDigitsCore 10 fuel n ds := by
  intro fuel
  induction fuel with
  | zero => intro n ds h; simpa [Nat.toDigitsCore] using h
  | succ f ih =>
    intro n ds h
    have hd : c ≠ Nat.digitChar (n % 10) :=
      fun e => hc (n % 10) (Nat.mod_lt _ (by decide)) e.symm
    unfold Nat.toDigitsCore
    simp only
    split_ifs
    · simp [hd, h]
    · apply ih
      simp [hd, h]

theorem not_mem_toString_nat (c : Char) (hc : ∀ k, k < 10 → Nat.digitChar k ≠ c) (n : Nat) :
    c ∉ (toString n).data := by
  show c ∉ (Nat.repr n).data
  unfold Nat.repr Nat.toDigits
  simp only [List.asString]
  exact not_mem_toDigitsCore c hc _ _ _ (by simp)

/-- The rendering of an `int32` by `%v` consists of decimal digits and possibly a minus
sign. -/
theorem not_mem_verbV (c : Char) (hc : ∀ k, k < 10 → Nat.digitChar k ≠ c) (hm : c ≠ '-')
    (v : Int) : c ∉ (fmt.verbV v).data := by
  unfold fmt.verbV
  cases v with
  | ofNat n => exact not_mem_toString_nat c hc n
  | negSucc n =>
    show c ∉ ("-" ++ toString (n + 1)).data
    simp only [String.data_append, List.mem_append, not_or]
    exact ⟨by simpa using hm, not_mem_toString_nat c hc _⟩

theorem newline_not_mem_verbV (v : Int) : '\n' ∉ (fmt.verbV v).data :=
  not_mem_verbV '\n' (by decide) (by decide) v

/-! ## Formatting with no operands -/

namespace fmt

theorem parsenumLoop_length (s : List Char) :
    ∀ (num : Nat) (isnum : Bool), (parsenumLoop s num isnum).2.2.length ≤ s.length := by
  induction s with
  | nil => intro num isnum; simp [parsenumLoop]
  | cons c cs ih =>
    intro num isnum
    unfold parsenumLoop
    split_ifs
    · simp
    · exact Nat.le_succ_of_le (ih _ _)
    · simp

theorem argNumber_length (s : List Char) (good : Bool) :
    (argNumber s good).1.length ≤ s.length := by
  unfold argNumber
  split
  · simp
  · simp

theorem skipFlags_length (s : List Char) : (skipFlags s).length ≤ s.length := by
  induction s with
  | nil => simp [skipFlags]
  | cons c cs ih =>
    unfold skipFlags
    split_ifs
    · exact Nat.le_succ_of_le ih
    · simp

theorem width_length (s : List Char) (afterIndex good : Bool) :
    (width s afterIndex good).2.1.length ≤ s.length := by
  unfold width
  split
  · simp
  · exact parsenumLoop_length _ _ _

theorem precision_length (s : List Char) (afterIndex good : Bool) :
    (precision s afterIndex good).2.1.length ≤ s.length := by
  unfold precision
  split
  · rename_i t
    have h1 := argNumber_length t (good && !afterIndex)
    generalize argNumber t (good && !afterIndex) = r at h1
    obtain ⟨u, afterIndex1, good1⟩ := r
    simp only at h1 ⊢
    split
    · simp only [List.length_cons] at h1 ⊢
      omega
    · have h2 := parsenumLoop_length u 0 false
      simp only [List.length_cons]
      exact Nat.le_succ_of_le (Nat.le_trans h2 h1)
  · simp

theorem verb_length (s : List Char) (good : Bool) : (verb s good).2.length ≤ s.length := by
  unfold verb
  split
  · simp
  · split_ifs <;> simp

theorem directive_length (s : List Char) : (directive s).2.length ≤ s.length := by
  have h1 := skipFlags_length s
  have h2 := argNumber_length (skipFlags s) true
  unfold directive
  generalize argNumber (skipFlags s) true = r2 at h2 ⊢
  obtain ⟨s2, afterIndex2, good2⟩ := r2
  simp only at h2 ⊢
  have h3 := width_length s2 afterIndex2 good2
  generalize width s2 afterIndex2 good2 = r3 at h3 ⊢
  obtain ⟨out3, s3, afterIndex3, good3⟩ := r3
  simp only at h3 ⊢
  have h4 := precision_length s3 afterIndex3 good3
  generalize precision s3 afterIndex3 good3 = r4 at h4 ⊢
  obtain ⟨out4, s4, afterIndex4, good4⟩ := r4
  simp only at h4 ⊢
  have h5 := argNumber_length s4 good4
  cases afterIndex4 with
  | false =>
    show (verb (argNumber s4 good4).1 (argNumber s4 good4).2.2).2.length ≤ s.length
    have h6 := verb_length (argNumber s4 good4).1 (argNumber s4 good4).2.2
    omega
  | true =>
    show (verb s4 good4).2.length ≤ s.length
    have h6 := verb_length s4 good4
    omega

/-- The fuel of `doPrintfLoop` never runs out: any two amounts above the length of the
format give the same output. -/
theorem doPrintfLoop_fuel :
    ∀ (n m : Nat) (format : List Char), format.length < n → format.length < m →
      doPrintfLoop n format = doPrintfLoop m format := by
  intro n
  induction n with
  | zero => intro m format h; omega
  | succ n ih =>
    intro m format hn hm
    cases m with
    | zero => omega
    | succ m =>
      unfold doPrintfLoop
      have hd : (format.dropWhile (fun c => c ≠ '%')).length ≤ format.length :=
        (List.dropWhile_sublist _).length_le
      split
      · rfl
      · rename_i x afterPercent heq
        rw [heq] at hd
        simp only [List.length_cons] at hd
        have hl := directive_length afterPercent
        rw [ih m (directive afterPercent).2 (by omega) (by omega)]

/-- A format without a percent sign is written out unchanged. -/
theorem doPrintf_of_no_percent (format : List Char) (h : '%' ∉ format) :
    doPrintf format = format := by
  have hd : format.dropWhile (fun c => c ≠ '%') = [] := by
    rw [List.dropWhile_eq_nil_iff]
    intro c hc
    have : c ≠ '%' := fun e => h (e ▸ hc)
    simpa using this
  have ht : format.takeWhile (fun c => c ≠ '%') = format := by
    rw [List.takeWhile_eq_self_iff]
    intro c hc
    have : c ≠ '%' := fun e => h (e ▸ hc)
    simpa using this
  unfold doPrintf doPrintfLoop
  rw [hd, ht]

end fmt

/-- With a response free of percent signs, a successful read writes status 200 and
exactly the serialized response. -/
theorem handlerRead_ok_body (env : Env) (w : World) (req : Request)
    (h : req.Method = "GET") (hne : w.Dataset.Words ≠ [])
    (uid : Nat) (hf : env.flakeNextID w.flakeCalls = .ok uid) (responseJSON : String)
    (hj : env.jsonMarshal
      { Uid := uid % 18446744073709551616,
        Value := w.Dataset.Words.get ⟨drawnIndex env w, drawnIndex_lt env w hne⟩ } =
        .ok responseJSON)
    (hp : '%' ∉ responseJSON.data) :
    (handlerRead env w req .fresh).rw = ⟨true, StatusOK, responseJSON⟩ ∧
    (handlerRead env w req .fresh).world.Metrics =
      { w.Metrics with Read := atomic.AddInt32 w.Metrics.Read 1 } := by
  rw [handlerRead_ok env w req _ h hne uid hf responseJSON hj]
  refine ⟨?_, rfl⟩
  simp [fmt.Fprintf, fmt.doPrintf_of_no_percent _ hp, ResponseWriter.Write,
    ResponseWriter.WriteHeader, ResponseWriter.fresh]

/-! ## The library encoder and percent signs -/

theorem hexDigit_ne_percent (n : Nat) : json.hexDigit n ≠ '%' := by
  unfold json.hexDigit
  by_cases h : n < 16
  · interval_cases n <;> decide
  · rw [List.getD_eq_default _ _ (by simpa using Nat.le_of_not_lt h)]
    decide

theorem not_mem_ite {α : Type} (x : α) (p : Prop) [Decidable p] (a b : List α)
    (ha : x ∉ a) (hb : x ∉ b) : x ∉ (if p then a else b) := by
  by_cases hp : p
  · rw [if_pos hp]; exact ha
  · rw [if_neg hp]; exact hb

theorem escapeChar_no_percent (c : Char) (h : c ≠ '%') : '%' ∉ json.escapeChar c := by
  have h1 := (hexDigit_ne_percent (c.toNat / 16)).symm
  have h2 := (hexDigit_ne_percent (c.toNat % 16)).symm
  have h3 := h.symm
  unfold json.escapeChar
  refine not_mem_ite _ _ _ _ (by decide) (not_mem_ite _ _ _ _ (by decide)
    (not_mem_ite _ _ _ _ (by decide) (not_mem_ite _ _ _ _ (by decide)
    (not_mem_ite _ _ _ _ (by decide) (not_mem_ite _ _ _ _ (by decide)
    (not_mem_ite _ _ _ _ (by decide) (not_mem_ite _ _ _ _ ?_
    (not_mem_ite _ _ _ _ (by decide) (not_mem_ite _ _ _ _ (by decide) ?_)))))))))
  · simp [h1, h2]
  · simp [h3]

/-- The encoded response contains a percent sign only if the word does. -/
theorem encode_no_percent (v : APIReadResponseStruct) (h : '%' ∉ v.Value.data) :
    '%' ∉ (json.encode v).data := by
  have hq : '%' ∉ (json.quote v.Value).data := by
    unfold json.quote
    simp only [String.data_append, List.mem_append, not_or, List.mem_flatMap, not_exists,
      not_and]
    refine ⟨⟨by decide, ?_⟩, by decide⟩
    intro c hc
    exact escapeChar_no_percent c (fun e => h (e ▸ hc))
  unfold json.encode
  simp only [String.data_append, List.mem_append, not_or]
  exact ⟨⟨⟨⟨by decide, not_mem_toString_nat '%' (by decide) _⟩, by decide⟩, hq⟩,
    by decide⟩

/-- With the library encoder and a word list free of percent signs, a GET on a non-empty
word list for which the generator returns `uid` is answered with status 200 and the JSON
object of `uid` and a word of the list; `Read` is one more and `Errors` is unchanged. -/
theorem handlerRead_ok_encoded (env : Env) (w : World) (req : Request)
    (h : req.Method = "GET") (hne : w.Dataset.Words ≠ [])
    (hp : ∀ word ∈ w.Dataset.Words, '%' ∉ word.data)
    (uid : Nat) (hf : env.flakeNextID w.flakeCalls = .ok uid)
    (hm : env.jsonMarshal = json.Marshal) :
    ∃ word ∈ w.Dataset.Words,
      (handlerRead env w req .fresh).rw =
        ⟨true, StatusOK, json.encode ⟨uid % 18446744073709551616, word⟩⟩ ∧
      (handlerRead env w req .fresh).panicked = none ∧
      (handlerRead env w req .fresh).world.Metrics =
        { w.Metrics with Read := atomic.AddInt32 w.Metrics.Read 1 } := by
  refine ⟨w.Dataset.Words.get ⟨drawnIndex env w, drawnIndex_lt env w hne⟩,
    List.get_mem _ _ _, ?_⟩
  have hj : env.jsonMarshal
      { Uid := uid % 18446744073709551616,
        Value := w.Dataset.Words.get ⟨drawnIndex env w, drawnIndex_lt env w hne⟩ } =
      .ok (json.encode
        { Uid := uid % 18446744073709551616,
          Value := w.Dataset.Words.get ⟨drawnIndex env w, drawnIndex_lt env w hne⟩ }) := by
    rw [hm]; rfl
  have hpj := encode_no_percent
    { Uid := uid % 18446744073709551616,
      Value := w.Dataset.Words.get ⟨drawnIndex env w, drawnIndex_lt env w hne⟩ }
    (hp _ (List.get_mem _ _ _))
  have hb := handlerRead_ok_body env w req h hne uid hf _ hj hpj
  refine ⟨hb.1, ?_, hb.2⟩
  rw [handlerRead_ok env w req _ h hne uid hf _ hj]

/-! ## The successful read -/

/-- C1, the code at the failing input: with the word list `["100%"]`, the generator
returning 1 and the library encoder, serialization yields the JSON object with uid 1
and value `100%`, but the body `handlerRead` writes is a different text, because the
serialized response is used as the format string of `fmt.Fprintf`.  Status, `Read`
and `Errors` are as the claim says. -/
theorem C1_percent_in_word :
    demoEnv.flakeNextID (initWorld ["100%"]).flakeCalls = .ok 1 ∧
    demoEnv.jsonMarshal ⟨1, "100%"⟩ = .ok "\x7b\"uid\":1,\"value\":\"100%\"\x7d" ∧
    (handlerRead demoEnv (initWorld ["100%"]) getRead .fresh).rw.body =
      "\x7b\"uid\":1,\"value\":\"100%!\"(MISSING)\x7d" ∧
    (handlerRead demoEnv (initWorld ["100%"]) getRead .fresh).rw.body ≠
      "\x7b\"uid\":1,\"value\":\"100%\"\x7d" ∧
    (handlerRead demoEnv (initWorld ["100%"]) getRead .fresh).rw.finalStatus = StatusOK ∧
    (handlerRead demoEnv (initWorld ["100%"]) getRead .fresh).world.Metrics.Read = 1 ∧
    (handlerRead demoEnv (initWorld ["100%"]) getRead .fresh).world.Metrics.Errors = 0 := by
  refine ⟨rfl, rfl, ?_, ?_, ?_, ?_, ?_⟩ <;> decide

/-! ## The metrics exposition -/

/-- Writing lines one after the other appends them, each with its newline, to the
body; the status is the one already written, or 200. -/
theorem foldl_Write (lines : List String) :
    ∀ rw : ResponseWriter,
      ((lines.foldl (fun r line => r.Write (line ++ "\n")) rw).body.data =
        rw.body.data ++ lines.flatMap (fun l => l.data ++ ['\n'])) ∧
      (lines.foldl (fun r line => r.Write (line ++ "\n")) rw).finalStatus =
        rw.finalStatus := by
  induction lines with
  | nil => intro rw; simp
  | cons l ls ih =>
    intro rw
    rw [List.foldl_cons, (ih _).1, (ih _).2]
    constructor
    · simp [ResponseWriter.Write, ResponseWriter.WriteHeader]
      split_ifs <;> simp
    · simp only [ResponseWriter.Write, ResponseWriter.WriteHeader,
        ResponseWriter.finalStatus]
      split_ifs <;> simp_all

theorem splitLines_line (l : List Char) (h : '\n' ∉ l) :
    ∀ (cur rest : List Char),
      splitLines cur (l ++ '\n' :: rest) = (cur.reverse ++ l) :: splitLines [] rest := by
  induction l with
  | nil => intro cur rest; simp [splitLines]
  | cons c cs ih =>
    intro cur rest
    have hc : c ≠ '\n' := fun e => h (by simp [e])
    have hcs : '\n' ∉ cs := fun e => h (by simp [e])
    show splitLines cur (c :: (cs ++ '\n' :: rest)) = _
    simp only [splitLines, hc, if_false]
    rw [ih hcs]
    simp

theorem splitLines_flatMap (lines : List String) (h : ∀ l ∈ lines, '\n' ∉ l.data) :
    splitLines [] (lines.flatMap (fun l => l.data ++ ['\n'])) = lines.map (fun l => l.data) := by
  induction lines with
  | nil => simp [splitLines]
  | cons l ls ih =>
    have h1 : '\n' ∉ l.data := h l (by simp)
    have h2 : ∀ x ∈ ls, '\n' ∉ x.data := fun x hx => h x (by simp [hx])
    simp only [List.flatMap_cons, List.append_assoc, List.singleton_append, List.map_cons]
    rw [splitLines_line _ h1, ih h2]
    simp

theorem metricsLines_no_newline (m : MetricsStruct) :
    ∀ l ∈ metricsLines m, '\n' ∉ l.data := by
  intro l hl
  simp only [metricsLines, List.mem_cons, List.mem_singleton, List.not_mem_nil,
    or_false] at hl
  rcases hl with rfl | rfl | rfl | rfl | rfl | rfl | rfl | rfl | rfl | rfl | rfl | rfl |
    rfl | rfl | rfl
  all_goals first
    | decide
    | (simp only [String.data_append, List.mem_append, not_or]
       exact ⟨by decide, newline_not_mem_verbV _⟩)

/-- C6: for every state of the counters and every request, the body written by
`handlerMetrics` has exactly seven non-comment lines, in this order and each with the
decimal rendering of the current counter: the four `word_shuffle_req` lines for create,
read, update and delete, then `word_shuffle_errors`, `word_shuffle_warnings` and
`word_shuffle_index`; the response status is 200 and the state, in particular every
counter, is left as it was. -/
theorem C6_metrics_exposition (w : World) (req : Request) :
    nonCommentLines (handlerMetrics w req .fresh).rw.body =
      ["word_shuffle_req\x7bmethod=\"create\"\x7d " ++ toString w.Metrics.Create,
       "word_shuffle_req\x7bmethod=\"read\"\x7d " ++ toString w.Metrics.Read,
       "word_shuffle_req\x7bmethod=\"update\"\x7d " ++ toString w.Metrics.Update,
       "word_shuffle_req\x7bmethod=\"delete\"\x7d " ++ toString w.Metrics.Delete,
       "word_shuffle_errors " ++ toString w.Metrics.Errors,
       "word_shuffle_warnings " ++ toString w.Metrics.Warnings,
       "word_shuffle_index " ++ toString w.Metrics.Index] ∧
    (handlerMetrics w req .fresh).rw.finalStatus = StatusOK ∧
    (handlerMetrics w req .fresh).panicked = none ∧
    (handlerMetrics w req .fresh).world = w := by
  refine ⟨?_, ?_, rfl, rfl⟩
  · unfold nonCommentLines handlerMetrics
    simp only
    rw [(foldl_Write _ _).1]
    show List.map String.mk (List.filter _ (splitLines [] ([] ++ _))) = _
    rw [List.nil_append, splitLines_flatMap _ (metricsLines_no_newline _)]
    simp [metricsLines, fmt.verbV, List.filter]
    exact ⟨rfl, rfl, rfl, rfl, rfl, rfl, rfl⟩
  · unfold handlerMetrics
    simp only
    rw [(foldl_Write _ _).2]
    rfl

end WordShuffle
